import Mathlib

/-!
Verification of the PostgreSQL persistence engine (pip-services3-psql-go).

Go strings are modelled as `List Char`; Go `interface{}` values flowing
through the driver are modelled by the inductive `GoValue`; Go `nil`
results are modelled with `Option`; code paths that dereference nil or
call a panicking library function are modelled by explicit `panic`-like
constructors of the result types.

Sources embedded here:
  * `PostgresPersistence` (GenerateColumns / GenerateParameters /
    GenerateSetParameters / GenerateValues / QuoteIdentifier /
    GetPageByFilter / GetOneRandom / Open / Configure)
  * `IdentifiablePostgresPersistence` (Update / UpdatePartially /
    DeleteByIds)
  * `PostgresConnectionResolver` (validateConnection / validateConnections)
-/

namespace PipPostgres

/-- The double-quote character used by QuoteIdentifier. -/
def dquote : Char := Char.ofNat 34

/-- The single-quote character tested by the Go QuoteIdentifier. -/
def squote : Char := Char.ofNat 39

/-- A driver-level value (`interface{}` in Go); only the shapes the
embedded code inspects are distinguished. -/
inductive GoValue where
  | vNull : GoValue
  | vInt : Int → GoValue
  | vStr : List Char → GoValue
  | vMap : List (List Char × GoValue) → GoValue

/-- Type assertion `.(map[string]interface{})` on a driver value. -/
def GoValue.asMap : GoValue → Option (List (List Char × GoValue))
  | .vMap m => some m
  | _ => none

/-- `LongConverter.ToLong` on the value shapes that occur in the
embedded code: integers convert to themselves, everything else to 0. -/
def toLong : Option GoValue → Int
  | some (.vInt n) => n
  | _ => 0

/-- `QuoteIdentifier` from `PostgresPersistence`:
returns the empty string unchanged, returns the string unchanged when its
first byte is a single quote, and otherwise wraps it in double quotes. -/
def quoteIdentifier (value : List Char) : List Char :=
  match value with
  | [] => []
  | c :: _ => if c = squote then value else dquote :: (value ++ [dquote])

/-- One step of the comma-joining loop used by the fragment builders: a
comma is appended only when the accumulated string is non-empty. -/
def commaStep (acc p : List Char) : List Char :=
  (if acc ≠ [] then acc ++ [','] else acc) ++ p

/-- The comma-joining loop used by the fragment builders. -/
def joinComma (parts : List (List Char)) : List Char :=
  parts.foldl commaStep []

/-- `GenerateColumns` from `PostgresPersistence` on a record already
converted to a key-value map (the result of `convertToMap`): the quoted
key names joined with commas, in map iteration order. -/
def generateColumns {α : Type} (items : List (List Char × α)) : List Char :=
  joinComma (items.map (fun p => quoteIdentifier p.1))

/-- `GenerateParameters` from `PostgresPersistence` for a record with
`n` fields: the loop writes `$` followed by
`strconv.FormatInt(index, 16)` for index = 1..n, comma separated. -/
def generateParameters (n : Nat) : List Char :=
  (List.range n).foldl
    (fun acc i =>
      (if acc ≠ [] then acc ++ [','] else acc) ++ '$' :: Nat.toDigits 16 (i + 1))
    []

/-- `GenerateSetParameters` from `PostgresPersistence`: builds the SET
clause `col=$i` (with `strconv.FormatInt(index, 16)`) and the bare quoted
column list, returning both. -/
def generateSetParameters {α : Type} (items : List (List Char × α)) :
    List Char × List Char :=
  let fin := items.foldl
    (fun (acc : List Char × List Char × Nat) p =>
      let result := acc.1
      let col := acc.2.1
      let index := acc.2.2
      let result' := if result ≠ [] then result ++ [','] else result
      let col' := if result ≠ [] then col ++ [','] else col
      (result' ++ quoteIdentifier p.1 ++ '=' :: '$' :: Nat.toDigits 16 index,
       col' ++ quoteIdentifier p.1, index + 1))
    ([], [], 1)
  (fin.1, fin.2.1)

/-- Result of `GenerateValues`: the Go function returns nil when the map
conversion failed, panics when the column string is empty, and otherwise
returns the value list. -/
inductive GVResult (α : Type) where
  | panics : GVResult α
  | ok : List (Option α) → GVResult α

/-- `strings.ReplaceAll(columns, "\"", "")`: removing every occurrence
of the one-character pattern is filtering that character out. -/
def stripQuotes (s : List Char) : List Char :=
  s.filter (fun c => c ≠ dquote)

/-- `GenerateValues` from `PostgresPersistence` (the two-argument
version): strips double quotes from the column string, splits it on
commas, and looks each resulting name up in the record map (a missing
key yields Go nil, modelled as `none`).  An empty column string panics. -/
def generateValues {α : Type} (columns : List Char) (items : List (List Char × α)) :
    GVResult α :=
  if columns = [] then .panics
  else .ok (((stripQuotes columns).splitOn ',').map (fun name => items.lookup name))

/-! Lemmas relating the fragment-builder loops to `List.intercalate`,
used to settle the column/value alignment claim. -/

theorem commaStep_loop (ps : List (List Char)) (acc : List Char) (h : acc ≠ []) :
    ps.foldl commaStep acc = acc ++ (ps.map (fun q => ',' :: q)).flatten := by
  induction ps generalizing acc with
  | nil => simp
  | cons p ps ih =>
    rw [List.foldl_cons]
    have hstep : commaStep acc p = acc ++ [','] ++ p := by
      simp [commaStep, h]
    rw [hstep, ih _ (by simp)]
    simp

theorem intercalate_comma_cons₂ (p q : List Char) (qs : List (List Char)) :
    [','].intercalate (p :: q :: qs) = p ++ ',' :: [','].intercalate (q :: qs) := by
  simp [List.intercalate, List.intersperse_cons_cons]

theorem intercalate_comma_form (p : List Char) (ps : List (List Char)) :
    [','].intercalate (p :: ps) = p ++ (ps.map (fun q => ',' :: q)).flatten := by
  induction ps generalizing p with
  | nil => simp [List.intercalate]
  | cons q qs ih => rw [intercalate_comma_cons₂, ih q]; simp

theorem joinComma_eq_intercalate (parts : List (List Char))
    (h : ∀ p ∈ parts, p ≠ []) :
    joinComma parts = [','].intercalate parts := by
  cases parts with
  | nil => rfl
  | cons p ps =>
    have hp : p ≠ [] := h p (List.mem_cons_self _ _)
    have hfirst : commaStep [] p = p := by simp [commaStep]
    rw [joinComma, List.foldl_cons, hfirst, commaStep_loop ps p hp,
      intercalate_comma_form]

theorem stripQuotes_intercalate (parts : List (List Char)) :
    stripQuotes ([','].intercalate parts)
      = [','].intercalate (parts.map stripQuotes) := by
  cases parts with
  | nil => rfl
  | cons p ps =>
    rw [intercalate_comma_form, List.map_cons, intercalate_comma_form]
    unfold stripQuotes
    rw [List.filter_append]
    congr 1
    induction ps with
    | nil => rfl
    | cons q qs ih =>
      have hcomma : (fun c => decide (c ≠ dquote)) ',' = true := by decide
      simp only [List.map_cons, List.flatten_cons, List.filter_append,
        List.filter_cons, hcomma, ih]
      simp

theorem stripQuotes_quoteIdentifier (n : List Char) (h : dquote ∉ n) :
    stripQuotes (quoteIdentifier n) = n := by
  have hself : stripQuotes n = n := by
    refine List.filter_eq_self.mpr ?_
    intro a ha
    simp only [decide_eq_true_eq]
    intro hc; exact h (hc ▸ ha)
  cases n with
  | nil => rfl
  | cons c t =>
    rw [quoteIdentifier]
    by_cases hc : c = squote
    · rw [if_pos hc]; exact hself
    · rw [if_neg hc]
      unfold stripQuotes at hself ⊢
      simp only [List.filter_cons, List.filter_append]
      have hdq : (fun c => decide (c ≠ dquote)) dquote = false := by decide
      simp only [hdq, List.filter_cons, List.filter_nil] at *
      simpa using hself

theorem quoteIdentifier_ne_nil (n : List Char) (h : n ≠ []) :
    quoteIdentifier n ≠ [] := by
  cases n with
  | nil => exact absurd rfl h
  | cons c t =>
    rw [quoteIdentifier]
    by_cases hc : c = squote
    · rw [if_pos hc]; exact h
    · rw [if_neg hc]; exact List.cons_ne_nil _ _

theorem comma_not_mem_quoteIdentifier (n : List Char) (h : ',' ∉ n) :
    ',' ∉ quoteIdentifier n := by
  cases n with
  | nil => simp [quoteIdentifier]
  | cons c t =>
    rw [quoteIdentifier]
    by_cases hc : c = squote
    · rw [if_pos hc]; exact h
    · rw [if_neg hc]
      intro hmem
      rcases List.mem_cons.mp hmem with h1 | h2
      · exact absurd h1.symm (by decide)
      · rcases List.mem_append.mp h2 with h3 | h4
        · exact h h3
        · exact absurd (List.mem_singleton.mp h4).symm (by decide)

theorem lookup_self_of_nodup {α : Type} (items : List (List Char × α))
    (hnd : (items.map Prod.fst).Nodup) :
    ∀ p ∈ items, items.lookup p.1 = some p.2 := by
  induction items with
  | nil => intro p hp; cases hp
  | cons q rest ih =>
    intro p hp
    rcases List.mem_cons.mp hp with rfl | hmem
    · simp [List.lookup]
    · have hq : q.1 ∉ rest.map Prod.fst := by
        rw [List.map_cons, List.nodup_cons] at hnd
        exact hnd.1
      have hne : p.1 ≠ q.1 := by
        intro he
        exact hq (he ▸ List.mem_map_of_mem Prod.fst hmem)
      have hrest := ih (by rw [List.map_cons, List.nodup_cons] at hnd; exact hnd.2) p hmem
      simp [List.lookup, beq_eq_false_iff_ne.mpr hne, hrest]

/-- C1 (amended): for every record with at least one field, with distinct
field names that are ordinary identifiers (non-empty, containing neither a
comma nor a double quote), the value list produced by `GenerateValues`
from the column string produced by `GenerateColumns` over the same record
snapshot is exactly the record's values in column order — the i-th value
is the value of the i-th column name.  (The zero-field case panics, see
the counterexample.) -/
theorem C1_values_align_with_columns {α : Type} (items : List (List Char × α))
    (hne : items ≠ [])
    (hnd : (items.map Prod.fst).Nodup)
    (hsafe : ∀ p ∈ items, p.1 ≠ [] ∧ (',' ∉ p.1) ∧ dquote ∉ p.1) :
    generateValues (generateColumns items) items
      = GVResult.ok (items.map (fun p => some p.2)) := by
  have hq : ∀ p ∈ items.map (fun p => quoteIdentifier p.1), p ≠ [] := by
    intro p hp
    rcases List.mem_map.mp hp with ⟨q, hqmem, rfl⟩
    exact quoteIdentifier_ne_nil _ (hsafe q hqmem).1
  have hcols : generateColumns items
      = [','].intercalate (items.map (fun p => quoteIdentifier p.1)) := by
    rw [generateColumns, joinComma_eq_intercalate _ hq]
  have hcols_ne : generateColumns items ≠ [] := by
    rw [hcols]
    cases hitems : items with
    | nil => exact absurd hitems hne
    | cons p ps =>
      rw [List.map_cons, intercalate_comma_form]
      have : quoteIdentifier p.1 ≠ [] :=
        quoteIdentifier_ne_nil _ (hsafe p (hitems ▸ List.mem_cons_self _ _)).1
      cases h0 : quoteIdentifier p.1 with
      | nil => exact absurd h0 this
      | cons c t => exact List.cons_ne_nil _ _
  have hstrip : stripQuotes (generateColumns items)
      = [','].intercalate (items.map Prod.fst) := by
    rw [hcols, stripQuotes_intercalate, List.map_map]
    congr 1
    refine List.map_congr_left ?_
    intro p hp
    exact stripQuotes_quoteIdentifier _ (hsafe p hp).2.2
  have hsplit : (stripQuotes (generateColumns items)).splitOn ','
      = items.map Prod.fst := by
    rw [hstrip]
    refine List.splitOn_intercalate _ ',' ?_ ?_
    · intro l hl
      rcases List.mem_map.mp hl with ⟨q, hqmem, rfl⟩
      exact (hsafe q hqmem).2.1
    · intro h0
      exact hne (List.map_eq_nil_iff.mp h0)
  rw [generateValues, if_neg hcols_ne, hsplit, List.map_map]
  have := lookup_self_of_nodup items hnd
  congr 1
  refine List.map_congr_left ?_
  intro p hp
  exact this p hp

/-- C1 counterexample: a record with zero fields makes `GenerateColumns`
return the empty string, on which `GenerateValues` panics instead of
yielding the (empty) aligned value sequence. -/
theorem C1_zero_fields_panic :
    generateValues (generateColumns ([] : List (List Char × Int)))
        ([] : List (List Char × Int))
      = GVResult.panics := rfl

/-- C1 witness: the amended alignment theorem applied at a concrete
one-field record. -/
theorem C1_values_align_with_columns_witness :
    generateValues (generateColumns [((['a'] : List Char), (7 : Int))])
        [((['a'] : List Char), (7 : Int))]
      = GVResult.ok [some 7] :=
  C1_values_align_with_columns [((['a'] : List Char), (7 : Int))]
    (List.cons_ne_nil _ _) (by decide) (by decide)

/-- C2: placeholder indexes are written with `strconv.FormatInt(index, 16)`
(base 16), so for a record with ten fields the tenth placeholder of the
positional-parameter list is `$a`, not `$10`, and the SET clause likewise
numbers its tenth column `=$a`. -/
theorem C2_placeholders_hex_at_ten :
    generateParameters 10 = ("$1,$2,$3,$4,$5,$6,$7,$8,$9,$a").toList ∧
    (generateSetParameters
        (((['a'] : List Char), ()) :: ((['b'] : List Char), ()) ::
         ((['c'] : List Char), ()) :: ((['d'] : List Char), ()) ::
         ((['e'] : List Char), ()) :: ((['f'] : List Char), ()) ::
         ((['g'] : List Char), ()) :: ((['h'] : List Char), ()) ::
         ((['i'] : List Char), ()) :: ((['j'] : List Char), ()) :: [])).1
      = ("\"a\"=$1,\"b\"=$2,\"c\"=$3,\"d\"=$4,\"e\"=$5,\"f\"=$6,\"g\"=$7,\"h\"=$8,\"i\"=$9,\"j\"=$a").toList := by
  constructor
  · decide
  · decide

/-- C6: `QuoteIdentifier` tests the first character against a single
quote, not a double quote, so an already double-quote-delimited
identifier is wrapped a second time, and quoting is not idempotent. -/
theorem C6_quoteIdentifier_rewraps_quoted :
    quoteIdentifier (("\"id\"").toList) = ("\"\"id\"\"").toList ∧
    quoteIdentifier (quoteIdentifier (("id").toList))
      ≠ quoteIdentifier (("id").toList) := by
  constructor
  · decide
  · decide

/-- `strconv.FormatInt(n, 10)`. -/
def formatInt10 (n : Int) : List Char :=
  if n < 0 then '-' :: Nat.toDigits 10 n.natAbs else Nat.toDigits 10 n.natAbs

/-- Outcome of `GetOneRandom`: `(nil, err)`, `(nil, nil)`, a panic inside
`rand.Int63n`, or a found row. -/
inductive RandomOutcome where
  | fail : List Char → RandomOutcome
  | absent : RandomOutcome
  | panicked : RandomOutcome
  | found : List GoValue → RandomOutcome

/-- `GetOneRandom` from `PostgresPersistence` as a function of the two
query round trips (the count query and the fetch query, each an error or
a list of rows).  The count is extracted from the first count row only
when its single value passes the `map[string]interface{}` type assertion;
`rand.Int63n(count)` panics when `count <= 0`; when the fetch query
errors the code returns the count query's error, which is nil here. -/
def getOneRandom (countQErr : Option (List Char)) (countRows : List (List GoValue))
    (fetchQErr : Option (List Char)) (fetchRows : List (List GoValue)) :
    RandomOutcome :=
  match countQErr with
  | some e => .fail e
  | none =>
    match countRows with
    | [] => .absent
    | row :: _ =>
      let count : Int :=
        match row with
        | [v] =>
          match v.asMap with
          | some m => toLong (m.lookup (("count").toList))
          | none => 0
        | _ => 0
      if count ≤ 0 then .panicked
      else
        match fetchQErr with
        | some _ => .absent
        | none =>
          match fetchRows with
          | [] => .absent
          | r :: _ => .found r

/-- The main SELECT query built by `GetPageByFilter`: projection, WHERE
from the filter, ORDER BY, OFFSET when skip is non-negative, LIMIT. -/
def pageMainQuery (table : List Char) (filter sort sel : Option (List Char))
    (skip take : Int) : List Char :=
  let q0 :=
    match sel with
    | some s =>
      if s ≠ [] then ("SELECT ").toList ++ s ++ (" FROM ").toList ++ quoteIdentifier table
      else ("SELECT * FROM ").toList ++ quoteIdentifier table
    | none => ("SELECT * FROM ").toList ++ quoteIdentifier table
  let q1 :=
    match filter with
    | some f => if f ≠ [] then q0 ++ (" WHERE ").toList ++ f else q0
    | none => q0
  let q2 :=
    match sort with
    | some srt => if srt ≠ [] then q1 ++ (" ORDER BY ").toList ++ srt else q1
    | none => q1
  let q3 := if skip ≥ 0 then q2 ++ (" OFFSET ").toList ++ formatInt10 skip else q2
  q3 ++ (" LIMIT ").toList ++ formatInt10 take

/-- The COUNT query built by `GetPageByFilter` when paging totals are
requested: a WHERE clause is added only when the filter is non-nil AND
the projection argument `sel` type-asserts to a non-empty string, and the
appended predicate is that projection string. -/
def pageCountQuery (table : List Char) (filter sel : Option (List Char)) : List Char :=
  let base := ("SELECT COUNT(*) AS count FROM ").toList ++ quoteIdentifier table
  match filter with
  | none => base
  | some _ =>
    match sel with
    | some s => if s ≠ [] then base ++ (" WHERE ").toList ++ s else base
    | none => base

/-- A resolved connection entry as read by `validateConnection`:
`GetAsNullableString("database")` yields nil when the key is absent. -/
structure ConnectionEntry where
  uri : String
  host : String
  port : Nat
  database : Option String
deriving DecidableEq

/-- Result of the resolver's validation: success, a ConfigError of a
given kind, or a nil-pointer dereference panic. -/
inductive ValidateResult where
  | ok : ValidateResult
  | configErr : String → ValidateResult
  | nilDeref : ValidateResult
deriving DecidableEq

/-- `validateConnection` from `PostgresConnectionResolver`: a non-empty
uri passes; otherwise host and port are checked, and then the nullable
`database` string is dereferenced unconditionally before the emptiness
test. -/
def validateConnection (conn : ConnectionEntry) : ValidateResult :=
  if conn.uri ≠ "" then .ok
  else if conn.host = "" then .configErr "NO_HOST"
  else if conn.port = 0 then .configErr "NO_PORT"
  else
    match conn.database with
    | none => .nilDeref
    | some d => if d = "" then .configErr "NO_DATABASE" else .ok

/-- The per-entry loop of `validateConnections`: first failure wins. -/
def validateEach : List ConnectionEntry → ValidateResult
  | [] => .ok
  | c :: rest =>
    match validateConnection c with
    | .ok => validateEach rest
    | r => r

/-- `validateConnections` from `PostgresConnectionResolver`. -/
def validateConnections (conns : List ConnectionEntry) : ValidateResult :=
  match conns with
  | [] => .configErr "NO_CONNECTION"
  | _ :: _ => validateEach conns

/-- C3: with a filter matching zero rows the COUNT query yields a single
row holding the integer 0; the type assertion to a map fails, the count
stays 0, and `rand.Int63n(0)` panics — the call does not return the
absent `(nil, nil)` result. -/
theorem C3_getOneRandom_zero_count_panics :
    getOneRandom none [[GoValue.vInt 0]] none [] = RandomOutcome.panicked := by
  rfl

/-- C4: with a plain string filter and a nil projection, the main SELECT
carries the filter in its WHERE clause but the COUNT query built for the
total carries no WHERE clause at all (the code type-asserts the
projection argument instead of the filter), so the total counts the
whole table. -/
theorem C4_count_query_drops_filter :
    pageMainQuery (("t").toList) (some (("x=1").toList)) none none (-1) 100
      = ("SELECT * FROM \"t\" WHERE x=1 LIMIT 100").toList ∧
    pageCountQuery (("t").toList) (some (("x=1").toList)) none
      = ("SELECT COUNT(*) AS count FROM \"t\"").toList := by
  constructor
  · decide
  · decide

/-- C5: a connection entry with no uri, a host, a non-zero port and an
absent `database` parameter makes `validateConnection` dereference the
nil nullable string and panic instead of returning the NO_DATABASE
ConfigError; `validateConnections` propagates the same behavior. -/
theorem C5_validate_panics_on_absent_database :
    validateConnection ⟨"", "localhost", 5432, none⟩ = ValidateResult.nilDeref ∧
    validateConnections [⟨"", "localhost", 5432, none⟩] = ValidateResult.nilDeref := by
  constructor
  · decide
  · decide

/-- The item slot of a Go `(result interface{}, err error)` return: a nil
interface, a decoded row, or an error value stored in the item slot. -/
inductive ItemSlot where
  | nothing : ItemSlot
  | row : List GoValue → ItemSlot
  | errValue : List Char → ItemSlot

/-- A Go two-value return `(item, err)`, or a runtime panic. -/
inductive GoPair where
  | ret : ItemSlot → Option (List Char) → GoPair
  | panicked : GoPair

/-- `Update` from `IdentifiablePostgresPersistence` as a function of the
input item and the query round trip (query error, whether a row came
back, and the result of decoding its values).  On a decode error `vErr`
the code executes `return vErr, nil`, placing the error in the item
slot. -/
def update (item : Option GoValue) (qErr : Option (List Char)) (next : Bool)
    (values : Except (List Char) (List GoValue)) : GoPair :=
  match item with
  | none => .ret .nothing none
  | some _ =>
    match qErr with
    | some e => .ret .nothing (some e)
    | none =>
      if next then
        match values with
        | .error vErr => .ret (.errValue vErr) none
        | .ok rows =>
          if rows.length > 0 then .ret (.row rows) none else .ret .nothing none
      else .ret .nothing none

/-- `UpdatePartially` from `IdentifiablePostgresPersistence`: only the id
is nil-checked (the `data == nil` guard is commented out in the source),
so `data.Value()` dereferences a nil `*AnyValueMap` and panics when the
partial data is nil; otherwise the flow is the same as `update`. -/
def updatePartially (id : Option GoValue)
    (data : Option (List (List Char × GoValue))) (qErr : Option (List Char))
    (next : Bool) (values : Except (List Char) (List GoValue)) : GoPair :=
  match id with
  | none => .ret .nothing none
  | some _ =>
    match data with
    | none => .panicked
    | some _ =>
      match qErr with
      | some e => .ret .nothing (some e)
      | none =>
        if next then
          match values with
          | .error vErr => .ret (.errValue vErr) none
          | .ok rows =>
            if rows.length > 0 then .ret (.row rows) none else .ret .nothing none
        else .ret .nothing none

/-- The DELETE statement built by `DeleteByIds` for `n` ids: the id list
is rendered by `GenerateParameters`, which yields an empty parameter list
for zero ids. -/
def deleteByIdsQuery (table : List Char) (n : Nat) : List Char :=
  ("DELETE FROM ").toList ++ quoteIdentifier table
    ++ (" WHERE \"Id\" IN(").toList ++ generateParameters n ++ (")").toList

/-- C7: `UpdatePartially` with nil partial data (and a non-nil id)
dereferences the nil data map and panics instead of returning an absent
result, and `DeleteByIds` with an empty id list still issues a DELETE
whose IN list is empty — `DELETE FROM "t" WHERE "Id" IN()` — rather than
being a guarded no-op. -/
theorem C7_updatePartially_nil_data_panics :
    updatePartially (some (GoValue.vStr (("1").toList))) none none false
        (Except.ok []) = GoPair.panicked ∧
    deleteByIdsQuery (("t").toList) 0
      = ("DELETE FROM \"t\" WHERE \"Id\" IN()").toList := by
  constructor
  · rfl
  · decide

/-- C8: when the UPDATE round trip returns a row whose values fail to
decode with error `vErr`, `Update` executes `return vErr, nil`: the error
value is returned in the item slot and the error slot is nil, violating
the rule that failures surface as `(nil, err)`.  (A nil input item and a
missing row do return `(nil, nil)`.) -/
theorem C8_update_error_in_item_slot :
    update (some (GoValue.vMap [])) none true
        (Except.error (("decode failed").toList))
      = GoPair.ret (ItemSlot.errValue (("decode failed").toList)) none ∧
    update none none false (Except.ok []) = GoPair.ret ItemSlot.nothing none ∧
    update (some (GoValue.vMap [])) none false (Except.ok [])
      = GoPair.ret ItemSlot.nothing none := by
  refine ⟨rfl, rfl, rfl⟩

/-- The lifecycle state of `PostgresPersistence` relevant to open/close:
the opened flag, whether a connection component is bound, whether it is
locally owned, and the query handle. -/
structure PersistenceState where
  opened : Bool
  hasConnection : Bool
  localConnection : Bool
  client : Option Nat
deriving DecidableEq

/-- The environment of one `Open` attempt: the error returned by
`Connection.Open` (when locally owned), the `Connection.IsOpen` answer,
the error of `AutoCreateObjects`, and the handle returned by
`GetConnection`. -/
structure OpenEnv where
  connOpenErr : Option (List Char)
  connIsOpen : Bool
  autoCreateErr : Option (List Char)
  clientHandle : Nat
deriving DecidableEq

/-- `IsOpen` from `PostgresPersistence`. -/
def isOpen (s : PersistenceState) : Bool := s.opened

/-- `Open` from `PostgresPersistence`: returns nil immediately when
already opened; otherwise creates a missing connection, opens a locally
owned one, checks the connection is present and open, clears the opened
flag, and on success installs the client handle and runs schema
auto-provisioning, failing back with a nil client on provisioning
error. -/
def openComponent (s : PersistenceState) (env : OpenEnv) :
    PersistenceState × Option (List Char) :=
  if s.opened then (s, none)
  else
    let s1 := if ¬s.hasConnection
      then { s with hasConnection := true, localConnection := true } else s
    let e0 : Option (List Char) :=
      if s1.localConnection then env.connOpenErr else none
    let e1 := if e0 = none ∧ ¬s1.hasConnection
      then some (("NO_CONNECTION").toList) else e0
    let e2 := if e1 = none ∧ ¬env.connIsOpen
      then some (("CONNECT_FAILED").toList) else e1
    let s2 := { s1 with opened := false }
    match e2 with
    | some e => (s2, some e)
    | none =>
      let s3 := { s2 with client := some env.clientHandle }
      match env.autoCreateErr with
      | some _ => ({ s3 with client := none }, some (("CONNECT_FAILED").toList))
      | none => ({ s3 with opened := true }, none)

/-- C9: `Open` on an already-open engine returns nil and leaves the state
untouched, and whenever `Open` returns an error the engine ends closed:
the opened flag is false and no client handle is live (assuming the
standing invariant that a closed engine holds no client handle). -/
theorem C9_open_idempotent_and_fails_closed (s : PersistenceState) (env : OpenEnv)
    (hinv : s.opened = false → s.client = none) :
    (s.opened = true → openComponent s env = (s, none)) ∧
    (∀ e, (openComponent s env).2 = some e →
      (openComponent s env).1.opened = false ∧
      (openComponent s env).1.client = none) := by
  obtain ⟨op, hc, lc, cl⟩ := s
  obtain ⟨coe, cio, ace, ch⟩ := env
  cases op with
  | false =>
    have hcl : cl = none := hinv rfl
    subst hcl
    constructor
    · intro h; exact absurd h (by simp)
    · intro e he
      cases hc <;> cases lc <;> cases coe <;> cases cio <;> cases ace <;>
        simp_all [openComponent]
  | true =>
    constructor
    · intro _; simp [openComponent]
    · intro e he
      simp [openComponent] at he

/-- C9 witness: the theorem applied to a concrete already-open state and
to a concrete failing open attempt. -/
theorem C9_open_idempotent_and_fails_closed_witness :
    ((PersistenceState.mk true true false (some 5)).opened = true →
      openComponent (PersistenceState.mk true true false (some 5))
          (OpenEnv.mk none true none 7)
        = (PersistenceState.mk true true false (some 5), none)) ∧
    (∀ e, (openComponent (PersistenceState.mk true true false (some 5))
          (OpenEnv.mk none true none 7)).2 = some e →
      (openComponent (PersistenceState.mk true true false (some 5))
          (OpenEnv.mk none true none 7)).1.opened = false ∧
      (openComponent (PersistenceState.mk true true false (some 5))
          (OpenEnv.mk none true none 7)).1.client = none) :=
  C9_open_idempotent_and_fails_closed
    (PersistenceState.mk true true false (some 5))
    (OpenEnv.mk none true none 7) (by decide)

/-- `ConfigParams.GetAsStringWithDefault`: the stored value when the key
is present, the supplied default otherwise. -/
def getAsStringWithDefault (cfg : List (String × String)) (key d : String) : String :=
  match cfg.lookup key with
  | some v => v
  | none => d

/-- `ConfigParams.SetDefaults`: configured values win, defaults fill in
only the missing keys. -/
def setDefaults (cfg defaults : List (String × String)) : List (String × String) :=
  cfg ++ defaults.filter (fun p => cfg.lookup p.1 = none)

/-- The default configuration installed by `NewPostgresPersistence`
(`"collection", nil` registers no string value for `collection`). -/
def persistenceDefaultConfig : List (String × String) :=
  [("dependencies.connection", "*:connection:postgres:*:1.0"),
   ("options.max_pool_size", "2"), ("options.keep_alive", "1"),
   ("options.connect_timeout", "5000"), ("options.auto_reconnect", "true"),
   ("options.max_page_size", "100"), ("options.debug", "true")]

/-- The table-name part of `Configure`: after merging defaults, the
`collection` option is read first with the current name as default, then
the `table` option is read with that result as default. -/
def configureTableName (cfg : List (String × String)) (current : String) : String :=
  let c := setDefaults cfg persistenceDefaultConfig
  getAsStringWithDefault c "table" (getAsStringWithDefault c "collection" current)

theorem lookup_append_lst {α β : Type} [BEq α] (l1 l2 : List (α × β)) (k : α) :
    (l1 ++ l2).lookup k = ((l1.lookup k).orElse (fun _ => l2.lookup k)) := by
  induction l1 with
  | nil => rfl
  | cons p rest ih =>
    rcases p with ⟨a, b⟩
    cases h : (k == a) with
    | true => simp [List.lookup, h]
    | false => simp [List.lookup, h, ih]

theorem lookup_eq_none_of_keys_ne {α β : Type} [BEq α] [LawfulBEq α]
    (l : List (α × β)) (k : α) (h : ∀ p ∈ l, p.1 ≠ k) : l.lookup k = none := by
  induction l with
  | nil => rfl
  | cons p rest ih =>
    rcases p with ⟨a, b⟩
    have hk : (k == a) = false :=
      beq_eq_false_iff_ne.mpr
        (fun he => h (a, b) (List.mem_cons_self _ _) he.symm)
    have hrest : rest.lookup k = none :=
      ih (fun q hq => h q (List.mem_cons_of_mem _ hq))
    simp [List.lookup, hk, hrest]

theorem setDefaults_lookup_not_default (cfg : List (String × String)) (k : String)
    (h : ∀ p ∈ persistenceDefaultConfig, p.1 ≠ k) :
    (setDefaults cfg persistenceDefaultConfig).lookup k = cfg.lookup k := by
  rw [setDefaults, lookup_append_lst]
  have : (persistenceDefaultConfig.filter
      (fun p => decide (cfg.lookup p.1 = none))).lookup k = none := by
    refine lookup_eq_none_of_keys_ne _ _ ?_
    intro p hp
    exact h p (List.mem_of_mem_filter hp)
  rw [this]
  cases cfg.lookup k <;> rfl

/-- C10: in `Configure`, the `table` option is applied after the
`collection` option and overrides it; when only one of the two is
configured that one determines the table name, and when neither is
configured the constructor-supplied name is kept. -/
theorem C10_table_overrides_collection (cfg : List (String × String))
    (current : String) :
    (∀ t, cfg.lookup "table" = some t → configureTableName cfg current = t) ∧
    (cfg.lookup "table" = none → ∀ cl, cfg.lookup "collection" = some cl →
      configureTableName cfg current = cl) ∧
    (cfg.lookup "table" = none → cfg.lookup "collection" = none →
      configureTableName cfg current = current) := by
  have htab : (setDefaults cfg persistenceDefaultConfig).lookup "table"
      = cfg.lookup "table" :=
    setDefaults_lookup_not_default cfg "table" (by decide)
  have hcol : (setDefaults cfg persistenceDefaultConfig).lookup "collection"
      = cfg.lookup "collection" :=
    setDefaults_lookup_not_default cfg "collection" (by decide)
  refine ⟨?_, ?_, ?_⟩
  · intro t ht
    simp [configureTableName, getAsStringWithDefault, htab, ht]
  · intro ht cl hcl
    simp [configureTableName, getAsStringWithDefault, htab, hcol, ht, hcl]
  · intro ht hcl
    simp [configureTableName, getAsStringWithDefault, htab, hcol, ht, hcl]

/-- C10 witness: with both options configured the `table` value wins. -/
theorem C10_table_overrides_collection_witness :
    ([("collection", "c1"), ("table", "t1")].lookup "table" = some "t1") ∧
    configureTableName [("collection", "c1"), ("table", "t1")] "orig" = "t1" :=
  ⟨by decide,
   (C10_table_overrides_collection [("collection", "c1"), ("table", "t1")]
      "orig").1 "t1" (by decide)⟩

end PipPostgres
